import Mathlib

/-!
Verification of the contact-form pipeline of `old.tezsayt.github.io`.

The repository contains several near-identical variants of the same
`SecureContactForm` React component:

* `src/src/components/SecureContactForm.tsx` — two variants in one file:
  a simple one (variant A, lines 1–246) and a dual-contact + consent one
  (variant B, lines 247–661);
* `src/unnamed/part_000` — variant with a localStorage rate limiter;
* `src/unnamed/part_001` — rate-limiter variant with `validateInput`
  length bounds and a looser phone sanitizer.

The definitions below are shallow embeddings of the pure helpers and of
the submit handlers of these variants.  JavaScript strings are modelled
as Lean `String` (lists of characters); epoch-millisecond timestamps as
`Int`; the `fetch` result as an explicit `FetchResult` value passed to
the handler.
-/

namespace ContactForm

/-- The characters removed by `sanitizeText` in every variant:
the regex class `[<>[\]{}'"\\/|;:=]`. -/
def denylist : List Char := "<>[]\x7b\x7d\x27\x22\\/|;:=".data

/-- `sanitizeText` of `SecureContactForm.tsx` (variant A, lines 19–20):
`value.replace(/[<>[\]{}'"\\/|;:=]/g, "")`. -/
def sanitizeText (v : String) : String :=
  String.mk (v.data.filter fun c => !denylist.contains c)

/-- JS `String.prototype.trim`: drop whitespace from both ends
(modelled over the character list so that it computes by reduction). -/
def jsTrim (s : String) : String :=
  String.mk
    (((s.data.dropWhile Char.isWhitespace).reverse.dropWhile
      Char.isWhitespace).reverse)

/-- `sanitizeText` of `part_000` line 23 and `part_001` lines 20–21:
same character removal followed by `.trim()`. -/
def sanitizeTextTrim (v : String) : String :=
  jsTrim (sanitizeText v)

/-- `sanitizeEmail` (all variants): `value.replace(/[^\w@.+-]/g, "").trim()`;
`\w` is `[A-Za-z0-9_]`. -/
def sanitizeEmail (v : String) : String :=
  jsTrim (String.mk (v.data.filter fun c =>
    c.isAlphanum || c = '_' || c = '@' || c = '.' || c = '+' || c = '-'))

/-- `sanitizePhone` of `part_000` line 27 and variant B line 273, also the
inline phone branch of `handleInputChange` in variant A (line 104):
`value.replace(/\D/g, "").slice(0, 9)`. -/
def sanitizePhone (v : String) : String :=
  String.mk ((v.data.filter Char.isDigit).take 9)

/-- `sanitizePhone` of `part_001` line 27:
`value.replace(/[^\d+]/g, "").trim()` — keeps digits AND the plus sign,
and does not truncate. -/
def sanitizePhoneV1 (v : String) : String :=
  jsTrim (String.mk (v.data.filter fun c => c.isDigit || c = '+'))

/-- `formatPhone` (variants A/B) / `formatUzPhone` (`part_000` lines 42–50):
strip non-digits, then group as `DD`, `DD D..`, `DD DDD D..`,
`DD DDD DD DD` depending on the digit count.  `slice(a,b)` is
`(drop a).take (b-a)`. -/
def formatPhone (value : String) : String :=
  let d : List Char := value.data.filter Char.isDigit
  if d.length ≤ 2 then String.mk d
  else if d.length ≤ 5 then
    String.mk (d.take 2) ++ " " ++ String.mk (d.drop 2)
  else if d.length ≤ 7 then
    String.mk (d.take 2) ++ " " ++ String.mk ((d.drop 2).take 3) ++ " " ++
      String.mk (d.drop 5)
  else
    String.mk (d.take 2) ++ " " ++ String.mk ((d.drop 2).take 3) ++ " " ++
      String.mk ((d.drop 5).take 2) ++ " " ++ String.mk ((d.drop 7).take 2)

/-- Characters excluded by the regex class `[^\s@]`. -/
def emailSegChar (c : Char) : Bool := !(c = '@' || c.isWhitespace)

/-- `validateEmail` (all variants): `/^[^\s@]+@[^\s@]+\.[^\s@]+$/.test(email)`.
By regex backtracking semantics the string matches iff it decomposes as
`A ++ "@" ++ B ++ "." ++ C` with `A`, `B`, `C` nonempty and free of `@`
and whitespace; we search over the position `i` of the `@` and the
position `j` of the dot. -/
def validateEmail (s : String) : Bool :=
  let l := s.data
  let n := l.length
  (List.range n).any fun i =>
    (List.range n).any fun j =>
      decide (1 ≤ i) && decide (i + 2 ≤ j) && decide (j + 2 ≤ n) &&
      (l.get? i == some '@') && (l.get? j == some '.') &&
      (l.take i).all emailSegChar &&
      (((l.drop (i+1)).take (j - i - 1)).all emailSegChar) &&
      ((l.drop (j+1)).all emailSegChar)

/-- `validatePhone` of `part_000` line 36 and variant B line 294:
`/^\d{9}$/.test(phone)`. -/
def validatePhone (phone : String) : Bool :=
  decide (phone.length = 9) && phone.data.all Char.isDigit

/-- `validateInput` of `part_001` lines 42–43 and variant B lines 296–297:
`value.length > 1 && value.length <= max`. -/
def validateInput (value : String) (max : Nat) : Bool :=
  decide (1 < value.length) && decide (value.length ≤ max)

/-- The 10-minute rate-limit window, in milliseconds. -/
def windowMs : Int := 10 * 60 * 1000

/-- `isRateLimited` of `part_000` lines 56–61: at least 5 stored
timestamps `t` with `now - t < 10*60*1000`.  The store is passed
explicitly instead of being read from localStorage. -/
def isRateLimited (now : Int) (list : List Int) : Bool :=
  decide (5 ≤ (list.filter fun t => decide (now - t < windowMs)).length)

/-- `isRateLimited` of `part_001` lines 49–56: same but with
`now - t <= windowMs`. -/
def isRateLimitedV1 (now : Int) (list : List Int) : Bool :=
  decide (5 ≤ (list.filter fun t => decide (now - t ≤ windowMs)).length)

/-- `recordSubmit` of `part_000` lines 63–68 / `recordSubmission` of
`part_001` lines 58–63: push `Date.now()` onto the stored list. -/
def recordSubmit (now : Int) (list : List Int) : List Int :=
  list ++ [now]

/-! ## Data model -/

/-- `ContactFormData`: the FormState held by the component. -/
structure ContactFormData where
  name : String
  email : String
  message : String
  phone : String
deriving DecidableEq, Repr

/-- The all-empty FormState installed by `useState` initially and again
after a successful submission. -/
def emptyForm : ContactFormData :=
  { name := "", email := "", message := "", phone := "" }

/-- `FormErrors`: one optional message per field plus the synthetic
`submit` and `agree` keys.  `some msg` models the key being present. -/
structure FormErrors where
  name : Option String
  email : Option String
  message : Option String
  phone : Option String
  submit : Option String
  agree : Option String
deriving DecidableEq, Repr

/-- The empty error map `{}`. -/
def noErrors : FormErrors :=
  { name := none, email := none, message := none, phone := none,
    submit := none, agree := none }

/-- `Object.keys(e).length === 0` for the error map. -/
def FormErrors.isEmpty (e : FormErrors) : Bool :=
  e.name.isNone && e.email.isNone && e.message.isNone && e.phone.isNone &&
    e.submit.isNone && e.agree.isNone

/-- `setErrors({ submit: msg })`: a fresh map holding only the submit key. -/
def submitOnlyErrors (msg : String) : FormErrors :=
  { noErrors with submit := some msg }

/-- The translation strings the form logic reads (`t.…`).  The table in
`src/data/translations` is not part of the sources, so it is kept
abstract; `errContact` models `t.errors?.contact`, which the dual-contact
variant guards with a `||` fallback. -/
structure Translations where
  formInputName : String
  formInputMessage : String
  formTelephone : String
  formSendError : String
  formPolicyError : String
  errName : String
  errMessage : String
  errEmail : String
  errPhone : String
  errContact : Option String
deriving DecidableEq, Repr

/-- The shared contact-method message of variant B line 424:
`t.errors?.contact || t.formTelephone + " / Email"` (JS `||` also treats
the empty string as falsy). -/
def contactError (t : Translations) : String :=
  match t.errContact with
  | some s => if s = "" then t.formTelephone ++ " / Email" else s
  | none => t.formTelephone ++ " / Email"

/-- The result of an issued `fetch`: resolved with a body, or rejected. -/
inductive FetchResult where
  | ok (body : String)
  | fail
deriving DecidableEq, Repr

/-- A form field targeted by an input-change event. -/
inductive Field where
  | name
  | email
  | message
  | phone
deriving DecidableEq, Repr

/-- `handleInputChange` of variant A lines 99–108 (equally variant B
lines 446–454 and `part_000` lines 92–101 up to the trim on free text):
email through `sanitizeEmail`, phone through digits-and-truncate,
free text through `sanitizeText`. -/
def handleInputChange (fd : ContactFormData) (f : Field) (v : String) :
    ContactFormData :=
  match f with
  | Field.email => { fd with email := sanitizeEmail v }
  | Field.phone => { fd with phone := sanitizePhone v }
  | Field.name => { fd with name := sanitizeText v }
  | Field.message => { fd with message := sanitizeText v }

/-- `handleInputChange` of `part_001` lines 108–120: phone goes through
the looser `sanitizePhoneV1`, free text through the trimming sanitizer. -/
def handleInputChangeV1 (fd : ContactFormData) (f : Field) (v : String) :
    ContactFormData :=
  match f with
  | Field.email => { fd with email := sanitizeEmail v }
  | Field.phone => { fd with phone := sanitizePhoneV1 v }
  | Field.name => { fd with name := sanitizeTextTrim v }
  | Field.message => { fd with message := sanitizeTextTrim v }

/-! ## Validators of the individual variants -/

/-- `validateForm` of variant A, `SecureContactForm.tsx` lines 85–97:
name shorter than 2 flagged, message shorter than 5 flagged, nonempty
email must pass `validateEmail`, nonempty phone must have length 9.
No upper length bounds and no rate-limit check. -/
def validateFormA (t : Translations) (fd : ContactFormData) : FormErrors :=
  { name := if fd.name.length < 2 then some t.formInputName else none
    message := if fd.message.length < 5 then some t.formInputMessage else none
    email :=
      if fd.email ≠ "" ∧ ¬ validateEmail fd.email then
        some t.formInputMessage
      else none
    phone :=
      if fd.phone ≠ "" ∧ fd.phone.length ≠ 9 then
        some t.formTelephone
      else none
    submit := none
    agree := none }

/-- `validateForm` of `part_000` lines 103–116: name and message shorter
than 2 flagged, email/phone checks, and the rate-limit check feeding the
synthetic `submit` key. -/
def validateFormP0 (t : Translations) (fd : ContactFormData) (now : Int)
    (submits : List Int) : FormErrors :=
  { name := if fd.name.length < 2 then some t.formInputName else none
    message := if fd.message.length < 2 then some t.formInputMessage else none
    email :=
      if fd.email ≠ "" ∧ ¬ validateEmail fd.email then
        some t.formInputMessage
      else none
    phone :=
      if fd.phone ≠ "" ∧ ¬ validatePhone fd.phone then
        some t.formTelephone
      else none
    submit := if isRateLimited now submits then some t.formSendError else none
    agree := none }

/-- `validateForm` of variant B, `SecureContactForm.tsx` lines 411–444:
`validateInput` bounds 100/1000, the dual-contact rule (both email and
phone empty flags both with the shared message), per-field email/phone
checks, and the consent gate.  The JS code assigns the contact error
first and may overwrite `e.email`/`e.phone` in the later per-field
branches; those branches fire only when the field is nonempty, so the
two writes are mutually exclusive and the encoding below is faithful. -/
def validateFormDual (t : Translations) (fd : ContactFormData)
    (agree : Bool) : FormErrors :=
  let contactFlag := fd.email = "" ∧ fd.phone = ""
  { name := if ¬ validateInput fd.name 100 then some t.errName else none
    message := if ¬ validateInput fd.message 1000 then some t.errMessage else none
    email :=
      if fd.email ≠ "" ∧ ¬ validateEmail fd.email then some t.errEmail
      else if contactFlag then some (contactError t) else none
    phone :=
      if fd.phone ≠ "" ∧ ¬ validatePhone fd.phone then some t.errPhone
      else if contactFlag then some (contactError t) else none
    submit := none
    agree := if ¬ agree then some t.formPolicyError else none }

/-! ## Submit handlers -/

/-- The component state of the `part_000` variant relevant to submission:
FormState, the error map, the `submitted` flag and the persisted
rate-limit store. -/
structure StateP0 where
  formData : ContactFormData
  errors : FormErrors
  submitted : Bool
  submits : List Int
deriving DecidableEq, Repr

/-- `handleSubmit` of `part_000` lines 118–149: run `validateForm`
(which stores its error map); stop before the network when it reports
errors; otherwise issue the fetch and, when the resolved body is exactly
`"OK"`, record a rate-limiter entry, mark `submitted` and reset
FormState; on any other body or a rejected fetch set only a generic
submit error.  The returned Bool tells whether the network was
reached. -/
def handleSubmitP0 (t : Translations) (st : StateP0) (now : Int)
    (res : FetchResult) : StateP0 × Bool :=
  let e := validateFormP0 t st.formData now st.submits
  if e.isEmpty then
    match res with
    | FetchResult.ok body =>
      if body = "OK" then
        ({ formData := emptyForm, errors := e, submitted := true,
           submits := recordSubmit now st.submits }, true)
      else
        ({ st with errors := submitOnlyErrors t.formSendError }, true)
    | FetchResult.fail =>
        ({ st with errors := submitOnlyErrors t.formSendError }, true)
  else
    ({ st with errors := e }, false)

/-- The component state of variant B relevant to submission: FormState,
the consent flag, the error map and the `submitted` flag. -/
structure StateDual where
  formData : ContactFormData
  agree : Bool
  errors : FormErrors
  submitted : Bool
deriving DecidableEq, Repr

/-- `handleSubmit` of variant B, `SecureContactForm.tsx` lines 456–492:
validation gate, then on resolved body `"OK"` mark `submitted`, reset
FormState and clear the consent flag (`setAgree(false)`, line 483);
otherwise set only a generic submit error.  The returned Bool tells
whether the network was reached. -/
def handleSubmitDual (t : Translations) (st : StateDual)
    (res : FetchResult) : StateDual × Bool :=
  let e := validateFormDual t st.formData st.agree
  if e.isEmpty then
    match res with
    | FetchResult.ok body =>
      if body = "OK" then
        ({ formData := emptyForm, agree := false, errors := e,
           submitted := true }, true)
      else
        ({ st with errors := submitOnlyErrors t.formSendError }, true)
    | FetchResult.fail =>
        ({ st with errors := submitOnlyErrors t.formSendError }, true)
  else
    ({ st with errors := e }, false)

/-! ## Device classification -/

/-- Does `p` match `l` starting at index `i`, comparing characters
case-insensitively (the `i` regex flag, ASCII patterns)? -/
def substrCIAt (l p : List Char) (i : Nat) : Bool :=
  (((l.drop i).take p.length).length == p.length) &&
    (List.zip ((l.drop i).take p.length) p).all fun ab =>
      ab.1.toLower == ab.2.toLower

/-- Case-insensitive substring test: `/p/i.test(s)` for a literal
pattern `p`. -/
def containsCI (s p : String) : Bool :=
  (List.range (s.data.length + 1)).any fun i => substrCIAt s.data p.data i

/-- Case-sensitive substring test: JS `String.includes`. -/
def containsSub (s p : String) : Bool :=
  (List.range (s.data.length + 1)).any fun i =>
    p.data.isPrefixOf (s.data.drop i)

/-- Remove the first occurrence of `p` from `l`:
JS `l.replace(p, "")` with a plain-string pattern. -/
def removeFirstOcc (p : List Char) : List Char → List Char
  | [] => []
  | c :: cs =>
    if p.isPrefixOf (c :: cs) then (c :: cs).drop p.length
    else c :: removeFirstOcc p cs

/-- `getDeviceModel` of variant A, `SecureContactForm.tsx` lines 43–59:
a chain of case-insensitive user-agent tests, each returning a fixed
label, with `"Unknown device"` as the final fallback.  The pattern
`Xiaomi|Mi|Redmi` is the three-way disjunction below. -/
def getDeviceModel (ua : String) : String :=
  if containsCI ua "iPhone" then "iPhone (iOS)"
  else if containsCI ua "Android" then
    if containsCI ua "Samsung" then "Samsung (Android)"
    else if containsCI ua "Xiaomi" || containsCI ua "Mi" ||
        containsCI ua "Redmi" then "Xiaomi (Android)"
    else if containsCI ua "Pixel" then "Google Pixel (Android)"
    else "Android phone"
  else if containsCI ua "Macintosh" then "MacBook / macOS"
  else if containsCI ua "Windows" then "Windows PC"
  else "Unknown device"

/-- The ambient environment read by the extended `getDeviceModel`
(variant B lines 303–378): user agent, platform, device pixel ratio,
screen geometry, touch-point count and the optional WebGL renderer
string (`none` when obtaining it fails; the surrounding `try` swallows
that failure). -/
structure Env where
  ua : String
  platform : String
  devicePixelRatio : Nat
  screenWidth : Nat
  screenHeight : Nat
  maxTouchPoints : Nat
  gpuRenderer : Option String
deriving DecidableEq, Repr

/-- The iPhone resolution table of variant B lines 318–327. -/
def iphoneMap : List (String × String) :=
  [("1290x2796", "iPhone 15-16-17 Pro Max"),
   ("1179x2556", "iPhone 15-16 Pro"),
   ("1170x2532", "iPhone 13-14-15"),
   ("1284x2778", "iPhone 11-12-13-14 Pro Max"),
   ("1792x828", "iPhone (XR-11)"),
   ("1334x750", "iPhone (6-7-8)"),
   ("1080x2340", "iPhone 13 mini"),
   ("750x1334", "iPhone SE (2022/2024)")]

/-- The iPad resolution table of variant B lines 332–340. -/
def ipadMap : List (String × String) :=
  [("2208x3200", "iPad Pro M4 13\x22"),
   ("2156x3036", "iPad Pro M4 11\x22"),
   ("2048x2732", "iPad Pro 12.9\x22"),
   ("1668x2388", "iPad Pro 11\x22"),
   ("1640x2360", "iPad Air M2"),
   ("1620x2160", "iPad 10 / 11"),
   ("1488x2266", "iPad mini")]

/-- The Mac resolution table of variant B lines 345–352. -/
def macMap : List (String × String) :=
  [("3456x2234", "MacBook Pro 16\x22"),
   ("3024x1964", "MacBook Pro 16\x22"),
   ("3024x1890", "MacBook Pro 14\x22"),
   ("2880x1800", "MacBook Pro 14\x22"),
   ("2880x1864", "MacBook Air 15\x22"),
   ("2560x1664", "MacBook Air 13\x22")]

/-- A character allowed inside the capture group `[^;)]+`. -/
def notSemiParen (c : Char) : Bool := !(c = ';' || c = ')')

/-- Given that `Android` matches (case-insensitively) at index `i`,
complete the match of `/Android.*; ([^;)]+)/i`: the greedy `.*` picks
the LAST position `j ≥ i+7` holding `"; "` followed by at least one
character outside `;)` (`.` does not cross a newline), and the greedy
capture is the maximal such run after it. -/
def androidCaptureAt (l : List Char) (i : Nat) : Option (List Char) :=
  let js := (List.range l.length).filter fun j =>
    decide (i + 7 ≤ j) && (l.get? j == some ';') &&
    (l.get? (j+1) == some ' ') &&
    (match l.get? (j+2) with
     | some c => notSemiParen c
     | none => false) &&
    (((l.drop (i+7)).take (j - (i+7))).all fun c => !(c = '\n'))
  match js.getLast? with
  | none => none
  | some j => some ((l.drop (j+2)).takeWhile notSemiParen)

/-- `ua.match(/Android.*; ([^;)]+)/i)`, returning the captured group:
regex search takes the leftmost start position at which the whole
pattern can match. -/
def matchAndroidModel (ua : String) : Option String :=
  let l := ua.data
  let starts := (List.range l.length).filter fun i =>
    substrCIAt l "Android".data i
  match starts.find? (fun i => (androidCaptureAt l i).isSome) with
  | none => none
  | some i => (androidCaptureAt l i).map String.mk

/-- `getDeviceModel` of variant B, `SecureContactForm.tsx` lines
303–378: resolution lookup for Apple devices, a GPU-renderer chip
suffix for Macs, user-agent model extraction for Android, fixed labels
otherwise. -/
def getDeviceModelV2 (e : Env) : String :=
  let dpr := if e.devicePixelRatio = 0 then 1 else e.devicePixelRatio
  let resolution :=
    toString (e.screenWidth * dpr) ++ "x" ++ toString (e.screenHeight * dpr)
  let isIOS := containsCI e.ua "iPhone" || containsCI e.ua "iPad" ||
    containsCI e.ua "iPod"
  let isMac := containsCI e.platform "Mac"
  let isIPad := containsCI e.ua "iPad" || (isMac && decide (1 < e.maxTouchPoints))
  let isMobile := containsCI e.ua "Mobi"
  if isIOS && !isIPad && isMobile then
    ((iphoneMap.lookup resolution).getD "iPhone")
  else if isIPad then
    ((ipadMap.lookup resolution).getD "iPad")
  else if isMac && !isMobile then
    let model := (macMap.lookup resolution).getD "Mac"
    match e.gpuRenderer with
    | none => model
    | some r =>
      if containsSub r "M3" then model ++ " M3"
      else if containsSub r "M2" then model ++ " M2"
      else if containsSub r "M1" then model ++ " M1"
      else model
  else if containsCI e.ua "Android" then
    match matchAndroidModel e.ua with
    | some m => jsTrim (String.mk (removeFirstOcc "Build".data m.data))
    | none => "Android Phone"
  else if containsCI e.ua "Windows" then "Windows PC"
  else if containsCI e.ua "Linux" then "Linux PC"
  else if isMobile then "Mobile Device"
  else "Desktop Device"

/-! ## Sample data used by witnesses -/

/-- A concrete translation table (the real one lives outside the given
sources, so any total table is representative). -/
def tSample : Translations :=
  { formInputName := "enter-name", formInputMessage := "enter-message",
    formTelephone := "enter-phone", formSendError := "send-failed",
    formPolicyError := "accept-policy", errName := "bad-name",
    errMessage := "bad-message", errEmail := "bad-email",
    errPhone := "bad-phone", errContact := none }

/-- A FormState that passes `validateFormP0`. -/
def fdOkP0 : ContactFormData :=
  { name := "ab", email := "", message := "hello", phone := "" }

/-- A `part_000` component state that passes validation (empty store). -/
def stOkP0 : StateP0 :=
  { formData := fdOkP0, errors := noErrors, submitted := false, submits := [] }

/-- A `part_000` component state whose store holds five fresh entries. -/
def stLimP0 : StateP0 :=
  { formData := fdOkP0, errors := noErrors, submitted := false,
    submits := [0, 0, 0, 0, 0] }

/-- A FormState that passes `validateFormDual`. -/
def fdOkDual : ContactFormData :=
  { name := "ab", email := "a@b.co", message := "hello", phone := "" }

/-- A variant-B component state that passes validation. -/
def stOkDual : StateDual :=
  { formData := fdOkDual, agree := true, errors := noErrors,
    submitted := false }

/-- A variant-B component state with both contact fields empty. -/
def stNoContact : StateDual :=
  { formData := { name := "ab", email := "", message := "hello", phone := "" },
    agree := true, errors := noErrors, submitted := false }

/-! ## Claims -/

/-- **C3.** For every input string, `sanitizeText`'s output contains none
of the characters of the denylist `<>[]{}'"\/|;:=`, and the sanitizer is
a fixed point on already-sanitized strings. -/
theorem sanitizeText_denylist_free_idempotent :
    (∀ s : String,
      ((sanitizeText s).data.all fun c => !denylist.contains c) = true) ∧
    (∀ s : String, sanitizeText (sanitizeText s) = sanitizeText s) := by
  constructor
  · intro s
    simp only [sanitizeText, List.all_eq_true]
    intro c hc
    exact (List.mem_filter.mp hc).2
  · intro s
    simp only [sanitizeText]
    congr 1
    rw [List.filter_filter]
    simp

/-- **C6.** `isRateLimited` is true iff at least 5 stored timestamps lie
within the trailing 10-minute window from `now`; five timestamps all
older than 10 minutes give false (in both the `part_000` and the
`part_001` embodiment of the window test). -/
theorem isRateLimited_window_spec (now : Int) (list : List Int) :
    (isRateLimited now list = true ↔
      5 ≤ list.countP fun ts => decide (now - windowMs < ts)) ∧
    (list.length = 5 → (∀ ts ∈ list, windowMs < now - ts) →
      isRateLimited now list = false) ∧
    (list.length = 5 → (∀ ts ∈ list, windowMs < now - ts) →
      isRateLimitedV1 now list = false) := by
  refine ⟨?_, ?_, ?_⟩
  · have hf : (list.filter fun t => decide (now - t < windowMs)) =
        list.filter fun ts => decide (now - windowMs < ts) := by
      apply List.filter_congr
      intro x _
      simp only [decide_eq_decide]
      omega
    simp only [isRateLimited, decide_eq_true_eq, hf,
      List.countP_eq_length_filter]
  · intro _ hold
    have hf : (list.filter fun t => decide (now - t < windowMs)) = [] := by
      rw [List.filter_eq_nil_iff]
      intro a ha
      have := hold a ha
      simp only [decide_eq_true_eq]
      omega
    simp only [isRateLimited]
    rw [hf]
    decide
  · intro _ hold
    have hf : (list.filter fun t => decide (now - t ≤ windowMs)) = [] := by
      rw [List.filter_eq_nil_iff]
      intro a ha
      have := hold a ha
      simp only [decide_eq_true_eq]
      omega
    simp only [isRateLimitedV1]
    rw [hf]
    decide

/-- Witness for C6 at a concrete store: five timestamps all older than
the window, and the window characterization at that input. -/
theorem isRateLimited_window_spec_witness :
    isRateLimited 700000 [1, 2, 3, 4, 5] = false :=
  (isRateLimited_window_spec 700000 [1, 2, 3, 4, 5]).2.1 rfl (by decide)

/-- **C9.** `formatPhone` realizes the stated concrete values, and on
digit strings of each length class it produces exactly the stated
grouping (`n ≤ 2` as-is; `3–5` as `DD D…`; `6–7` as `DD DDD D…`;
`8–9` as `DD DDD DD D[D]`). -/
theorem formatPhone_grouping :
    formatPhone "991234567" = "99 123 45 67" ∧
    formatPhone "99" = "99" ∧
    formatPhone "9912" = "99 12" ∧
    (∀ s : String, s.data.all Char.isDigit = true → s.length ≤ 2 →
      formatPhone s = s) ∧
    (∀ s : String, s.data.all Char.isDigit = true →
      3 ≤ s.length → s.length ≤ 5 →
      formatPhone s =
        String.mk (s.data.take 2) ++ " " ++ String.mk (s.data.drop 2)) ∧
    (∀ s : String, s.data.all Char.isDigit = true →
      6 ≤ s.length → s.length ≤ 7 →
      formatPhone s = String.mk (s.data.take 2) ++ " " ++
        String.mk ((s.data.drop 2).take 3) ++ " " ++
        String.mk (s.data.drop 5)) ∧
    (∀ s : String, s.data.all Char.isDigit = true →
      8 ≤ s.length → s.length ≤ 9 →
      formatPhone s = String.mk (s.data.take 2) ++ " " ++
        String.mk ((s.data.drop 2).take 3) ++ " " ++
        String.mk ((s.data.drop 5).take 2) ++ " " ++
        String.mk ((s.data.drop 7).take 2)) := by
  have hfd : ∀ s : String, s.data.all Char.isDigit = true →
      s.data.filter Char.isDigit = s.data := by
    intro s hall
    rw [List.filter_eq_self]
    simpa [List.all_eq_true] using hall
  have hlen : ∀ s : String, s.data.length = s.length := fun _ => rfl
  refine ⟨by decide, by decide, by decide, ?_, ?_, ?_, ?_⟩
  · intro s hall h2
    simp only [formatPhone, hfd s hall, hlen]
    rw [if_pos h2]
  · intro s hall h3 h5
    simp only [formatPhone, hfd s hall, hlen]
    rw [if_neg (by omega), if_pos h5]
  · intro s hall h6 h7
    simp only [formatPhone, hfd s hall, hlen]
    rw [if_neg (by omega), if_neg (by omega), if_pos h7]
  · intro s hall h8 h9
    simp only [formatPhone, hfd s hall, hlen]
    rw [if_neg (by omega), if_neg (by omega), if_neg (by omega)]

/-- Witness for C9: the digit string `"9912"` falls in the 3–5 class and
is grouped as `DD DD`. -/
theorem formatPhone_grouping_witness :
    formatPhone "9912" =
      String.mk ("9912".data.take 2) ++ " " ++ String.mk ("9912".data.drop 2) :=
  formatPhone_grouping.2.2.2.2.1 "9912" (by decide) (by decide) (by decide)

/-- The phone-field invariant claimed by the spec: raw digits only,
at most 9 of them. -/
def phoneInv (fd : ContactFormData) : Prop :=
  fd.phone.data.all Char.isDigit = true ∧ fd.phone.length ≤ 9

/-- **C4, counterexample.** In the `part_001` variant, an input-change
event on the phone field with the typed value `"+998901234567"` leaves a
FormState whose phone contains a non-digit (`+`) and has length 13 > 9:
`sanitizePhone` there keeps `+` and does not truncate. -/
theorem phone_invariant_violated_v1 :
    ((handleInputChangeV1 emptyForm Field.phone "+998901234567").phone.data.all
      Char.isDigit) = false ∧
    9 < (handleInputChangeV1 emptyForm Field.phone "+998901234567").phone.length := by
  constructor <;> decide

/-- **C4, amended.** In the variants whose phone sanitizer filters to
digits and truncates (`SecureContactForm.tsx` both variants, `part_000`),
the invariant holds after every phone input-change, is preserved by
input-changes to any field, and is preserved by the submit handlers of
both embedded state machines. -/
theorem phone_digits_invariant :
    (∀ (fd : ContactFormData) (v : String),
      phoneInv (handleInputChange fd Field.phone v)) ∧
    (∀ (fd : ContactFormData) (f : Field) (v : String),
      phoneInv fd → phoneInv (handleInputChange fd f v)) ∧
    (∀ (t : Translations) (st : StateP0) (now : Int) (res : FetchResult),
      phoneInv st.formData → phoneInv (handleSubmitP0 t st now res).1.formData) ∧
    (∀ (t : Translations) (st : StateDual) (res : FetchResult),
      phoneInv st.formData → phoneInv (handleSubmitDual t st res).1.formData) := by
  have hsan : ∀ v : String, phoneInv { emptyForm with phone := sanitizePhone v } := by
    intro v
    constructor
    · simp only [sanitizePhone, List.all_eq_true]
      intro c hc
      exact (List.mem_filter.mp (List.mem_of_mem_take hc)).2
    · show ((v.data.filter Char.isDigit).take 9).length ≤ 9
      simp [List.length_take]
  have hchange : ∀ (fd : ContactFormData) (v : String),
      phoneInv (handleInputChange fd Field.phone v) := by
    intro fd v
    exact hsan v
  have hempty : phoneInv emptyForm := ⟨rfl, by decide⟩
  refine ⟨hchange, ?_, ?_, ?_⟩
  · intro fd f v h
    cases f with
    | phone => exact hchange fd v
    | email => exact h
    | name => exact h
    | message => exact h
  · intro t st now res h
    simp only [handleSubmitP0]
    split
    · cases res with
      | ok body =>
        by_cases hb : body = "OK"
        · simp only [hb, if_pos rfl]
          exact hempty
        · simp only [if_neg hb]
          exact h
      | fail => exact h
    · exact h
  · intro t st res h
    simp only [handleSubmitDual]
    split
    · cases res with
      | ok body =>
        by_cases hb : body = "OK"
        · simp only [hb, if_pos rfl]
          exact hempty
        · simp only [if_neg hb]
          exact h
      | fail => exact h
    · exact h

/-- Witness for C4 (amended): the invariant propagates through an
input-change to the name field from the initial FormState. -/
theorem phone_digits_invariant_witness :
    phoneInv (handleInputChange emptyForm Field.name "hi") :=
  phone_digits_invariant.2.1 emptyForm Field.name "hi" ⟨rfl, by decide⟩

/-- A name of 101 characters. -/
def longName : String := String.mk (List.replicate 101 'a')

/-- **C5, counterexample.** The plain validator of
`SecureContactForm.tsx` lines 85–97 does not flag a name of length 101,
although `101` is outside `1 < len ≤ 100`: its only name rule is
`name.length < 2`. -/
theorem name_upper_bound_not_flagged_A :
    longName.length = 101 ∧
    (validateFormA tSample
      { name := longName, email := "", message := "hello",
        phone := "" }).name = none := by
  constructor <;> decide

/-- **C5, amended.** The `validateInput`-based validator (`part_001`
lines 42–43 and the dual-contact variant, lines 411–420) flags the name
exactly when its length is outside `1 < len ≤ 100` and the message
exactly when its length is outside `1 < len ≤ 1000`; a length-1 name is
rejected and a length-2 name accepted (also by the plain variant-A
validator, whose only name rule however is `len < 2`, with no upper
bound). -/
theorem validator_length_bounds (t : Translations) (fd : ContactFormData)
    (ag : Bool) :
    ((validateFormDual t fd ag).name = none ↔
      1 < fd.name.length ∧ fd.name.length ≤ 100) ∧
    ((validateFormDual t fd ag).message = none ↔
      1 < fd.message.length ∧ fd.message.length ≤ 1000) ∧
    validateInput "a" 100 = false ∧
    validateInput "ab" 100 = true ∧
    (validateFormA t
      { name := "a", email := "", message := "hello", phone := "" }).name =
        some t.formInputName ∧
    (validateFormA t
      { name := "ab", email := "", message := "hello", phone := "" }).name =
        none := by
  have hvi : ∀ (x : String) (m : Nat),
      validateInput x m = true ↔ 1 < x.length ∧ x.length ≤ m := by
    intro x m
    simp [validateInput]
  refine ⟨?_, ?_, by decide, by decide, rfl, rfl⟩
  · rw [← hvi]
    by_cases h : validateInput fd.name 100 = true <;>
      simp [validateFormDual, h]
  · rw [← hvi]
    by_cases h : validateInput fd.message 1000 = true <;>
      simp [validateFormDual, h]

/-- **C1.** For a submit attempt that passed validation and whose fetch
resolved, the submission succeeds — state moves to Success, FormState is
reset to all-empty, one rate-limiter entry is appended (in the
rate-limited `part_000` machine) and the consent flag is cleared (in the
consent-gated variant-B machine) — if and only if the response body is
the exact literal `"OK"`. -/
theorem submit_resolved_ok_iff (t : Translations) (st : StateP0)
    (st2 : StateDual) (now : Int) (body : String)
    (h1 : (validateFormP0 t st.formData now st.submits).isEmpty = true)
    (h2 : (validateFormDual t st2.formData st2.agree).isEmpty = true) :
    ((handleSubmitP0 t st now (FetchResult.ok body)).1.submitted = true ∧
     (handleSubmitP0 t st now (FetchResult.ok body)).1.formData = emptyForm ∧
     (handleSubmitP0 t st now (FetchResult.ok body)).1.submits =
       st.submits ++ [now] ∧
     (handleSubmitDual t st2 (FetchResult.ok body)).1.submitted = true ∧
     (handleSubmitDual t st2 (FetchResult.ok body)).1.formData = emptyForm ∧
     (handleSubmitDual t st2 (FetchResult.ok body)).1.agree = false) ↔
    body = "OK" := by
  constructor
  · rintro ⟨-, -, h3, -, -, -⟩
    by_contra hb
    simp only [handleSubmitP0, h1, if_true] at h3
    rw [if_neg hb] at h3
    have := congrArg List.length h3
    simp at this
  · intro hb
    subst hb
    refine ⟨?_, ?_, ?_, ?_, ?_, ?_⟩ <;>
      simp [handleSubmitP0, handleSubmitDual, h1, h2, recordSubmit]

/-- Witness for C1 at concrete states and body `"OK"`. -/
theorem submit_resolved_ok_iff_witness :
    ((handleSubmitP0 tSample stOkP0 1000 (FetchResult.ok "OK")).1.submitted =
       true ∧
     (handleSubmitP0 tSample stOkP0 1000 (FetchResult.ok "OK")).1.formData =
       emptyForm ∧
     (handleSubmitP0 tSample stOkP0 1000 (FetchResult.ok "OK")).1.submits =
       stOkP0.submits ++ [1000] ∧
     (handleSubmitDual tSample stOkDual (FetchResult.ok "OK")).1.submitted =
       true ∧
     (handleSubmitDual tSample stOkDual (FetchResult.ok "OK")).1.formData =
       emptyForm ∧
     (handleSubmitDual tSample stOkDual (FetchResult.ok "OK")).1.agree =
       false) ↔
    ("OK" : String) = "OK" :=
  submit_resolved_ok_iff tSample stOkP0 stOkDual 1000 "OK"
    (by decide) (by decide)

/-- **C2.** When a validated submit attempt fails — the fetch resolves
with a body other than `"OK"`, or rejects — the handler sets only the
generic submit-scoped error, leaves FormState untouched, and records no
rate-limiter entry (in either machine). -/
theorem submit_failure_preserves (t : Translations) (st : StateP0)
    (st2 : StateDual) (now : Int) (body : String)
    (h1 : (validateFormP0 t st.formData now st.submits).isEmpty = true)
    (h2 : (validateFormDual t st2.formData st2.agree).isEmpty = true)
    (hb : body ≠ "OK") :
    (handleSubmitP0 t st now (FetchResult.ok body)).1.formData = st.formData ∧
    (handleSubmitP0 t st now (FetchResult.ok body)).1.submits = st.submits ∧
    (handleSubmitP0 t st now (FetchResult.ok body)).1.errors =
      submitOnlyErrors t.formSendError ∧
    (handleSubmitP0 t st now FetchResult.fail).1.formData = st.formData ∧
    (handleSubmitP0 t st now FetchResult.fail).1.submits = st.submits ∧
    (handleSubmitP0 t st now FetchResult.fail).1.errors =
      submitOnlyErrors t.formSendError ∧
    (handleSubmitDual t st2 (FetchResult.ok body)).1.formData = st2.formData ∧
    (handleSubmitDual t st2 (FetchResult.ok body)).1.errors =
      submitOnlyErrors t.formSendError ∧
    (handleSubmitDual t st2 FetchResult.fail).1.formData = st2.formData ∧
    (handleSubmitDual t st2 FetchResult.fail).1.errors =
      submitOnlyErrors t.formSendError := by
  refine ⟨?_, ?_, ?_, ?_, ?_, ?_, ?_, ?_, ?_, ?_⟩ <;>
    simp [handleSubmitP0, handleSubmitDual, h1, h2, hb]

/-- Witness for C2 at concrete states and body `"ERR"`. -/
theorem submit_failure_preserves_witness :
    (handleSubmitP0 tSample stOkP0 1000 (FetchResult.ok "ERR")).1.formData =
      stOkP0.formData ∧
    (handleSubmitP0 tSample stOkP0 1000 (FetchResult.ok "ERR")).1.submits =
      stOkP0.submits ∧
    (handleSubmitP0 tSample stOkP0 1000 (FetchResult.ok "ERR")).1.errors =
      submitOnlyErrors tSample.formSendError ∧
    (handleSubmitP0 tSample stOkP0 1000 FetchResult.fail).1.formData =
      stOkP0.formData ∧
    (handleSubmitP0 tSample stOkP0 1000 FetchResult.fail).1.submits =
      stOkP0.submits ∧
    (handleSubmitP0 tSample stOkP0 1000 FetchResult.fail).1.errors =
      submitOnlyErrors tSample.formSendError ∧
    (handleSubmitDual tSample stOkDual (FetchResult.ok "ERR")).1.formData =
      stOkDual.formData ∧
    (handleSubmitDual tSample stOkDual (FetchResult.ok "ERR")).1.errors =
      submitOnlyErrors tSample.formSendError ∧
    (handleSubmitDual tSample stOkDual FetchResult.fail).1.formData =
      stOkDual.formData ∧
    (handleSubmitDual tSample stOkDual FetchResult.fail).1.errors =
      submitOnlyErrors tSample.formSendError :=
  submit_failure_preserves tSample stOkP0 stOkDual 1000 "ERR"
    (by decide) (by decide) (by decide)

/-- **C7.** A submit attempt made while the rate limiter reports the
user as limited never reaches the network: the validation pass itself
installs the submit-scoped error and the handler returns before the
fetch, whatever the (hypothetical) network result would have been. -/
theorem rate_limited_no_network (t : Translations) (st : StateP0) (now : Int)
    (h : isRateLimited now st.submits = true) :
    (validateFormP0 t st.formData now st.submits).submit =
      some t.formSendError ∧
    ∀ res : FetchResult, (handleSubmitP0 t st now res).2 = false := by
  have hsub : (validateFormP0 t st.formData now st.submits).submit =
      some t.formSendError := by
    simp [validateFormP0, h]
  have hne : (validateFormP0 t st.formData now st.submits).isEmpty = false := by
    simp [FormErrors.isEmpty, hsub]
  exact ⟨hsub, fun res => by simp [handleSubmitP0, hne]⟩

/-- Witness for C7: five fresh store entries rate-limit the user, and a
submit attempt issues no network call. -/
theorem rate_limited_no_network_witness :
    (validateFormP0 tSample stLimP0.formData 0 stLimP0.submits).submit =
      some tSample.formSendError ∧
    (handleSubmitP0 tSample stLimP0 0 FetchResult.fail).2 = false :=
  ⟨(rate_limited_no_network tSample stLimP0 0 (by decide)).1,
   (rate_limited_no_network tSample stLimP0 0 (by decide)).2 FetchResult.fail⟩

/-- **C8.** In the dual-contact variant, a FormState with both email and
phone empty gets both fields flagged with the same shared
contact-method message, and the submit attempt makes no network call. -/
theorem dual_contact_shared_error (t : Translations) (st2 : StateDual)
    (he : st2.formData.email = "") (hp : st2.formData.phone = "") :
    (validateFormDual t st2.formData st2.agree).email =
      some (contactError t) ∧
    (validateFormDual t st2.formData st2.agree).phone =
      some (contactError t) ∧
    ∀ res : FetchResult, (handleSubmitDual t st2 res).2 = false := by
  have hem : (validateFormDual t st2.formData st2.agree).email =
      some (contactError t) := by
    simp [validateFormDual, he, hp]
  have hph : (validateFormDual t st2.formData st2.agree).phone =
      some (contactError t) := by
    simp [validateFormDual, he, hp]
  have hne : (validateFormDual t st2.formData st2.agree).isEmpty = false := by
    simp [FormErrors.isEmpty, hem]
  exact ⟨hem, hph, fun res => by simp [handleSubmitDual, hne]⟩

/-- Witness for C8 at a concrete no-contact state. -/
theorem dual_contact_shared_error_witness :
    (validateFormDual tSample stNoContact.formData stNoContact.agree).email =
      some (contactError tSample) ∧
    (handleSubmitDual tSample stNoContact FetchResult.fail).2 = false :=
  ⟨(dual_contact_shared_error tSample stNoContact rfl rfl).1,
   (dual_contact_shared_error tSample stNoContact rfl rfl).2.2 FetchResult.fail⟩

/-- An environment whose user agent makes the extended classifier's
Android branch capture exactly `"Build"`. -/
def envAndroidBuild : Env :=
  { ua := "Android; Build", platform := "Win32", devicePixelRatio := 1,
    screenWidth := 1920, screenHeight := 1080, maxTouchPoints := 0,
    gpuRenderer := none }

/-- **C10, counterexample.** The extended classifier (variant B lines
303–378) returns the EMPTY string for the user agent `"Android; Build"`:
the regex `/Android.*; ([^;)]+)/i` captures `"Build"`, after which
`.replace("Build", "").trim()` leaves nothing — so the classifier does
not always return a non-empty label. -/
theorem device_label_can_be_empty :
    getDeviceModelV2 envAndroidBuild = "" := by
  decide

/-- **C10, amended.** The simple classifier (variant A lines 43–59) is a
total function that always returns a non-empty label; an Android user
agent containing the manufacturer token `Samsung` (and no `iPhone`
marker) yields `"Samsung (Android)"`; a user agent matching no known
family yields the generic `"Unknown device"` fallback.  (The extended
variant-B classifier, by the counterexample, can return an empty
label.) -/
theorem getDeviceModel_total_spec :
    (∀ ua : String, getDeviceModel ua ≠ "") ∧
    (∀ ua : String, containsCI ua "Android" = true →
      containsCI ua "iPhone" = false → containsCI ua "Samsung" = true →
      getDeviceModel ua = "Samsung (Android)") ∧
    (∀ ua : String, containsCI ua "iPhone" = false →
      containsCI ua "Android" = false → containsCI ua "Macintosh" = false →
      containsCI ua "Windows" = false →
      getDeviceModel ua = "Unknown device") := by
  refine ⟨?_, ?_, ?_⟩
  · intro ua
    unfold getDeviceModel
    repeat' split
    all_goals decide
  · intro ua h1 h2 h3
    simp [getDeviceModel, h1, h2, h3]
  · intro ua h1 h2 h3 h4
    simp [getDeviceModel, h1, h2, h3, h4]

/-- Witness for C10 (amended): a concrete Samsung Android user agent. -/
theorem getDeviceModel_total_spec_witness :
    getDeviceModel "Android Samsung" = "Samsung (Android)" :=
  getDeviceModel_total_spec.2.1 "Android Samsung"
    (by decide) (by decide) (by decide)

end ContactForm
